import Mathlib

/-!
Verification development for the Analogue DTI training/inference pipeline
(`portal/ml/dti_processor.py` and `portal/ml/dti_api.py`).

Numeric cells are modelled as idealized floating-point values `FVal`:
NaN, +infinity, -infinity, or a finite value represented by a rational.
Pandas missingness (`dropna`, `pd.isna`) treats exactly NaN as missing.
-/

namespace Analogue

/-- Idealized floating-point value: NaN, positive or negative infinity,
or a finite number (represented by a rational). -/
inductive FVal where
  | nan
  | inf
  | neginf
  | fin (q : ℚ)
deriving DecidableEq, Repr

/-- Model of pandas missingness (`pd.isna` / `dropna`): exactly NaN is missing. -/
def FVal.isna : FVal → Bool
  | .nan => true
  | _ => false

/-- Model of `np.isinf`: true on both infinities. -/
def FVal.isInfinite : FVal → Bool
  | .inf => true
  | .neginf => true
  | _ => false

/-- Model of `np.isfinite`: true exactly on finite numbers. -/
def FVal.isFinite : FVal → Bool
  | .fin _ => true
  | _ => false

/-- Model of the IEEE comparison `x > 0` used at `dti_processor.py:42`:
NaN compares false, +infinity compares true. -/
def FVal.gtZero : FVal → Bool
  | .inf => true
  | .fin q => decide (0 < q)
  | _ => false

/-- Model of Python `str(x)` / pandas `astype(str)` on a float cell.
Note `astype(str)` turns NaN into the literal string "nan", which is not
missing any more. The exact text of the finite case is irrelevant to every
claim; only totality (every cell becomes some string) matters. -/
def FVal.toStr : FVal → String
  | .nan => "nan"
  | .inf => "inf"
  | .neginf => "-inf"
  | .fin q => toString q

/-- Model of `np.log10` applied to a float cell, parametrized by the real
logarithm `lg` on strictly positive finite inputs (its numeric value never
matters to the claims, only its finiteness): `log10` of a strictly positive
finite float is finite, `log10 0 = -inf`, `log10` of a negative number is NaN,
`log10 inf = inf`, and `log10` of NaN or `-inf` is NaN. -/
def log10f (lg : ℚ → ℚ) : FVal → FVal
  | .fin q => if 0 < q then .fin (lg q) else if q = 0 then .neginf else .nan
  | .inf => .inf
  | .neginf => .nan
  | .nan => .nan

/-- One raw row of the training table, as consumed by
`protein_smiles_uploads` (`dti_processor.py:22`): the cell of the compound
column, the cell of the sequence column, the cell of the label column, and
the cells of all remaining columns. -/
structure RawRow where
  smiles : FVal
  protein : FVal
  value : FVal
  others : List FVal
deriving DecidableEq, Repr

/-- One row after the cleaning steps of `dti_processor.py:40-46`: the three
designated cells, the derived `seq_len` column (`dti_processor.py:41`, the
length of the string form of the sequence cell; an integer column, hence
never NaN nor infinite, so it cannot cause a row to be dropped later), the
derived `normalized` column, and the remaining cells. -/
structure CleanRow where
  smiles : FVal
  protein : FVal
  value : FVal
  seq_len : ℕ
  normalized : FVal
  others : List FVal
deriving DecidableEq, Repr

/-- Model of `df.dropna(subset=[Smiles, Protein, value_name])`
(`dti_processor.py:40`): keep the rows with no missing value in the three
designated columns. -/
def dropnaSubset (rows : List RawRow) : List RawRow :=
  rows.filter (fun r => !(r.smiles.isna || r.protein.isna || r.value.isna))

/-- Model of `df = df[df[value_name].astype(float) > 0]`
(`dti_processor.py:42`): keep the rows whose label cell compares strictly
greater than zero under IEEE semantics. -/
def filterPositive (rows : List RawRow) : List RawRow :=
  rows.filter (fun r => r.value.gtZero)

/-- Model of adding the derived columns `seq_len` (`dti_processor.py:41`)
and `normalized = np.log10(value)` (`dti_processor.py:43`) to a row. -/
def addNormalized (lg : ℚ → ℚ) (r : RawRow) : CleanRow :=
  { smiles := r.smiles
    protein := r.protein
    value := r.value
    seq_len := r.protein.toStr.length
    normalized := log10f lg r.value
    others := r.others }

/-- Float cells of a cleaned row, in all of its float columns (the integer
column `seq_len` carries no float and cannot be NaN or infinite). -/
def CleanRow.cells (r : CleanRow) : List FVal :=
  r.smiles :: r.protein :: r.value :: r.normalized :: r.others

/-- Model of `df.replace([np.inf, -np.inf], np.nan)` followed by
`df.dropna()` over all columns (`dti_processor.py:44-45`): a row survives
exactly when none of its float cells is NaN or infinite. -/
def rowOk (r : CleanRow) : Bool :=
  r.cells.all (fun c => !(c.isna || c.isInfinite))

/-- Model of the full cleaning block `dti_processor.py:40-46`: drop rows
with a missing value in one of the three designated columns, keep rows with
a strictly positive label, add the derived columns, then replace infinities
by NaN and drop every row still holding a NaN in any column. -/
def cleanDataset (lg : ℚ → ℚ) (rows : List RawRow) : List CleanRow :=
  ((filterPositive (dropnaSubset rows)).map (addNormalized lg)).filter rowOk

/-- Input table of the training pipeline: the names of the columns present,
together with the rows (each row holding the cells of the three designated
columns and of the remaining columns). -/
structure RawTable where
  cols : List String
  rows : List RawRow
deriving DecidableEq, Repr

/-- Control flow of `protein_smiles_uploads` up to the first call into the
opaque modeling library (`utils.data_process`, `dti_processor.py:57`):
either the column check at line 36 raises and the blanket handler at
line 149 returns the sentinel `(None, None, None, [], [], None)`, or the
function reaches the split call with the drug, target and label lists built
at lines 49-51 from the cleaned table. -/
inductive ProcFlow where
  | sentinel
  | reachesSplit (drugs targets : List String) (y : List FVal)
deriving DecidableEq, Repr

/-- Model of `protein_smiles_uploads` (`dti_processor.py:22-64`) up to the
split call: validate the three column names (line 36; a failure is caught
at line 149 and yields the sentinel return), clean the table (lines 40-46),
then proceed to the split with the extracted lists (lines 49-57). No
emptiness check is performed anywhere between cleaning and splitting. -/
def protein_smiles_uploads_flow (lg : ℚ → ℚ) (t : RawTable)
    (sCol pCol vCol : String) : ProcFlow :=
  if sCol ∈ t.cols ∧ pCol ∈ t.cols ∧ vCol ∈ t.cols then
    let cleaned := cleanDataset lg t.rows
    .reachesSplit (cleaned.map (fun r => r.smiles.toStr))
      (cleaned.map (fun r => r.protein.toStr))
      (cleaned.map (fun r => r.normalized))
  else
    .sentinel

/-- Python value reaching the transport-safe serializer `make_json_safe`
(`dti_api.py:206-214`). `float` is a plain Python float; `npNum` is a numpy
scalar or one-element array wrapping a float (its `item()` method unwraps
it); `pyStr` is a Python string; `raising` stands for any value on which the
classification tests of the `try` block raise (for example a multi-element
array, whose truth value is ambiguous), carrying the text `str(val)`
produces for it. -/
inductive PyVal where
  | float (x : FVal)
  | npNum (x : FVal)
  | pyStr (s : String)
  | raising (s : String)
deriving DecidableEq, Repr

/-- Result of `make_json_safe`: `None`, the input returned unchanged, the
plain number unwrapped by `val.item()`, or the `str(val)` fallback of the
`except` branch. -/
inductive SafeOut where
  | null
  | unchanged (v : PyVal)
  | numItem (x : FVal)
  | strFallback (s : String)
deriving DecidableEq, Repr

/-- Model of `pd.isna(val)` inside the `try` block of `make_json_safe`:
`some b` when the test evaluates to the boolean `b`, `none` when evaluating
it raises (the `raising` case). -/
def pdIsnaTest : PyVal → Option Bool
  | .float x => some x.isna
  | .npNum x => some x.isna
  | .pyStr _ => some false
  | .raising _ => none

/-- Model of the membership test `val in [np.inf, -np.inf]`
(`dti_api.py:208`): true exactly on the two infinities, whether plain or
numpy-wrapped. -/
def infMemberTest : PyVal → Bool
  | .float x => x.isInfinite
  | .npNum x => x.isInfinite
  | _ => false

/-- Model of Python `str(val)` on a serializer input. -/
def PyVal.strOf : PyVal → String
  | .float x => x.toStr
  | .npNum x => x.toStr
  | .pyStr s => s
  | .raising s => s

/-- Model of `make_json_safe` (`dti_api.py:206-214`): inside a `try`,
return `None` when `pd.isna(val)` holds or `val` is one of the two
infinities; unwrap a numpy scalar or array with `item()`; otherwise return
the value unchanged; on any exception fall back to `str(val)`. -/
def make_json_safe (v : PyVal) : SafeOut :=
  match pdIsnaTest v with
  | none => .strFallback v.strOf
  | some na =>
    if na || infMemberTest v then .null
    else
      match v with
      | .npNum x => .numItem x
      | v => .unchanged v

/-- Model of Python `s.endswith(suffix)`. -/
def strEndsWith (s suffix : String) : Bool :=
  suffix.data.isSuffixOf s.data

/-- One entry of `os.walk` output: the directory path `root` and the list
of plain files it holds, each with its size (`os.path.getsize`). `os.walk`
yields the top directory first, then each subdirectory in traversal order;
both loops of the source consume exactly this sequence, so an extracted
tree (or a model directory) is modelled by its walk sequence. An
`os.walk`-produced file name is a single path component (it contains no
separator), so `os.path.basename(os.path.join(root, file))` is `file`
itself; the packaging model stores the file name directly. -/
structure WalkEntry where
  root : String
  files : List (String × ℕ)
deriving DecidableEq, Repr

/-- Model of the ZIP packaging loop (`dti_processor.py:128-136`): walk the
model directory; skip every file whose name ends in ".zip" and every file
of size zero; store each surviving file under its base name. Result: the
archive members in insertion order, as (member name, size). -/
def zipMembers (walk : List WalkEntry) : List (String × ℕ) :=
  (walk.map (fun e =>
    (e.files.filter (fun f => !(strEndsWith f.1 ".zip" || f.2 == 0))).map
      (fun f => (f.1, f.2)))).flatten

/-- Model of the condition of `dti_api.py:114`: a directory qualifies as a
model directory when it holds at least one ".pt" file and at least one
".pkl" file. -/
def hasModelFiles (e : WalkEntry) : Bool :=
  (e.files.any (fun f => strEndsWith f.1 ".pt"))
    && (e.files.any (fun f => strEndsWith f.1 ".pkl"))

/-- Model of the model-directory discovery loop (`dti_api.py:112-121`):
collect every walk entry satisfying `hasModelFiles` into `possible_dirs`,
take the first if any, otherwise raise (modelled by `none`). -/
def findModelDir (walk : List WalkEntry) : Option String :=
  (((walk.filter hasModelFiles).map (fun e => e.root))).head?

/-- Sum of a list of rationals. -/
def qsum (xs : List ℚ) : ℚ :=
  xs.foldr (fun a b => a + b) 0

/-- Arithmetic mean of a list of rationals (callers guard the empty case). -/
def qmean (xs : List ℚ) : ℚ :=
  qsum xs / xs.length

/-- Total sum of squares of the true labels around their mean. -/
def ss_tot (yt : List ℚ) : ℚ :=
  qsum (yt.map (fun y => (y - qmean yt) ^ 2))

/-- Residual sum of squares of a prediction against the true labels. -/
def ss_res (yt yp : List ℚ) : ℚ :=
  qsum ((yt.zip yp).map (fun z => (z.1 - z.2) ^ 2))

/-- Model of `sklearn.metrics.r2_score(y_true, y_pred)`
(`dti_processor.py:85`): scikit-learn first validates the arrays and raises
`ValueError` on zero samples; with fewer than two samples it warns and
returns NaN; otherwise it returns `1 - ss_res/ss_tot`, treating a zero
total sum of squares specially (0.0 when the residual is nonzero, 1.0 when
both are zero). -/
def r2_score (yt yp : List ℚ) : Except String FVal :=
  if yt.length = 0 then .error "Found array with 0 samples"
  else if yt.length < 2 then .ok .nan
  else if ss_tot yt ≠ 0 then .ok (.fin (1 - ss_res yt yp / ss_tot yt))
  else if ss_res yt yp ≠ 0 then .ok (.fin 0)
  else .ok (.fin 1)

/-- Model of `sklearn.metrics.mean_squared_error(y_true, y_pred)`
(`dti_processor.py:86`): raises `ValueError` on zero samples, otherwise
returns the mean of the squared differences, always finite. -/
def mean_squared_error (yt yp : List ℚ) : Except String FVal :=
  if yt.length = 0 then .error "Found array with 0 samples"
  else .ok (.fin (qsum ((yt.zip yp).map (fun z => (z.1 - z.2) ^ 2)) / yt.length))

/-- Model of `np.corrcoef(y_true, y_pred)[0, 1]` (`dti_processor.py:87`).
The Pearson correlation divides the covariance by the product of the
standard deviations; when either variance is zero (in particular for a
single sample, or constant values) the division is 0/0 and numpy yields NaN
with a suppressed runtime warning. Since every claim concerns only the
finiteness of this metric, the finite case carries the square of the
correlation, `cov^2 / (var_t * var_p)`, which avoids the irrational square
root while being NaN in exactly the same cases as numpy. -/
def corrcoef01 (yt yp : List ℚ) : FVal :=
  let mt := qmean yt
  let mp := qmean yp
  let cov := qsum ((yt.zip yp).map (fun z => (z.1 - mt) * (z.2 - mp)))
  let vt := qsum (yt.map (fun y => (y - mt) ^ 2))
  let vp := qsum (yp.map (fun p => (p - mp) ^ 2))
  if vt = 0 ∨ vp = 0 then .nan else .fin (cov ^ 2 / (vt * vp))

/-- Model of the evaluation block `dti_processor.py:82-88` applied to the
true and predicted labels of the test partition: compute R2, then MSE, then
the Pearson correlation, with any raise propagating (to the blanket handler
at line 149, which returns the sentinel). There is no emptiness or
finiteness guard of any kind. -/
def evaluateMetrics (yt yp : List ℚ) : Except String (FVal × FVal × FVal) := do
  let r2 ← r2_score yt yp
  let mse ← mean_squared_error yt yp
  let corr := corrcoef01 yt yp
  pure (r2, mse, corr)

/-- CSV table uploaded for batch prediction: the column names and the rows,
each row listing its cells in column order. -/
structure CsvTable where
  cols : List String
  rows : List (List FVal)
deriving DecidableEq, Repr

/-- Cells of one named column, in row order (`df[col]`); a missing position
reads as NaN. -/
def CsvTable.col (t : CsvTable) (c : String) : List FVal :=
  t.rows.map (fun r => r.getD (t.cols.findIdx (fun n => n == c)) FVal.nan)

/-- Model of missingness of a Python string: a column converted with
`astype(str)` holds only strings, and a string is never missing. -/
def strIsna : String → Bool := fun _ => false

/-- Model of `df[col].astype(str).dropna().tolist()` (`dti_api.py:154-155`):
every cell, NaN included, first becomes a string, after which `dropna`
removes nothing. -/
def CsvTable.colAsStrDropna (t : CsvTable) (c : String) : List String :=
  ((t.col c).map FVal.toStr).filter (fun s => !strIsna s)

/-- Model of one entry of the list built at `dti_api.py:203`:
`float(x) if pd.notna(x) and not np.isinf(x) else None`. -/
def predCell (x : FVal) : Option ℚ :=
  match x with
  | .fin q => some q
  | _ => none

/-- Outcome of the opaque preprocessing-and-scoring steps of the CSV branch
(`dti_api.py:165-199`): `utils.data_process` raised (caught at line 182,
status 500); `X_pred` came back `None` or empty (line 188, status 400);
`model.predict` returned `None` (line 196, status 500); or predictions were
produced. -/
inductive PredStepResult where
  | preprocessFail (msg : String)
  | emptyProcessed
  | predictNone
  | ok (y_pred : List FVal)
deriving DecidableEq, Repr

/-- Successful batch payload (`dti_api.py:221-226`): `total_records` is
`len(df)` and `predicted` is the `Predicted` column added at line 203, one
entry per prediction in order. -/
structure BatchPayload where
  totalRecords : ℕ
  predicted : List (Option ℚ)
deriving DecidableEq, Repr

/-- Response of the prediction endpoint: a successful batch response, a
successful single-prediction response (produced only by the unreachable
manual branch at `dti_api.py:251-254`), or a JSON error with its HTTP
status. -/
inductive PredResponse where
  | okBatch (p : BatchPayload)
  | okSingle (pred : ℚ)
  | err (status : ℕ) (msg : String)
deriving DecidableEq, Repr

/-- Message of the `NameError` raised at `dti_api.py:203` when no CSV was
uploaded: the comprehension evaluates the name `y_pred`, which was never
bound on that path; the blanket handler at line 258 turns the exception
text into a status-500 JSON error. -/
def nameErrorMsg : String := "name y_pred is not defined"

/-- Model of `run_pharmalnet_prediction` (`dti_api.py:82-262`) after the
model file has been stored and loaded successfully, as a function of the
remaining request fields. `step` stands for the opaque
preprocessing-and-scoring pipeline (`utils.data_process` plus
`model.predict`) applied to the extracted string lists. Faithful to the
source indentation: lines 202-226 sit OUTSIDE the `if csv_file:` block, so
they also run when no CSV was uploaded, where `df` and `y_pred` are unbound
and line 203 raises `NameError`; consequently the manual-input branch at
lines 228-256 is unreachable. -/
def run_pharmalnet_prediction_body
    (step : List String → List String → PredStepResult)
    (csv : Option CsvTable) (smilesColOv proteinColOv : Option String)
    (manualSmiles manualProtein : Option String) : PredResponse :=
  match csv with
  | some df =>
    let smiles_col := smilesColOv.getD "Smiles"
    let protein_col := proteinColOv.getD "seq1"
    if ¬ (smiles_col ∈ df.cols ∧ protein_col ∈ df.cols) then
      .err 400 ("Missing required columns (" ++ smiles_col ++ ", "
        ++ protein_col ++ ")")
    else
      let smiles := df.colAsStrDropna smiles_col
      let proteins := df.colAsStrDropna protein_col
      if smiles.isEmpty || proteins.isEmpty then
        .err 400 "Empty SMILES or Protein sequence provided."
      else
        match step smiles proteins with
        | .preprocessFail m => .err 500 ("Data preprocessing failed: " ++ m)
        | .emptyProcessed =>
          .err 400 "Prediction data processing failed - check SMILES/Protein sequences."
        | .predictNone =>
          .err 500 "Model failed to generate predictions. Check data or encodings."
        | .ok y_pred =>
          .okBatch { totalRecords := df.rows.length
                     predicted := y_pred.map predCell }
  | none =>
    .err 500 nameErrorMsg

/-- Response of the training endpoint as far as the pipeline determines it
before the opaque training call: either a JSON response (status, error
message, archive download location), or control has passed into the opaque
split-and-train sequence with the extracted lists. -/
inductive ApiTrainResult where
  | response (status : ℕ) (errorMsg : Option String) (modelZip : Option String)
  | opaqueTraining (drugs targets : List String) (y : List FVal)
deriving DecidableEq, Repr

/-- Message of the failure response built at `dti_api.py:46`. -/
def trainFailMsg : String := "Training failed. Please verify dataset or columns."

/-- Model of `pharmalnet_train_api` (`dti_api.py:15-77`) for a well-formed
POST carrying all form fields: run `protein_smiles_uploads`; when it hands
back the sentinel (metrics is None) the endpoint answers with status 500,
the generic failure message, and no archive (`dti_api.py:45-46`);
otherwise control is inside the opaque training pipeline. -/
def pharmalnet_train_api (lg : ℚ → ℚ) (t : RawTable)
    (sCol pCol vCol : String) : ApiTrainResult :=
  match protein_smiles_uploads_flow lg t sCol pCol vCol with
  | .sentinel => .response 500 (some trainFailMsg) none
  | .reachesSplit d tg y => .opaqueTraining d tg y

/-- Well-formed walk output: every file name is a nonempty single path
component (no separator), as `os.walk` produces. -/
def wfWalk (walk : List WalkEntry) : Prop :=
  ∀ e ∈ walk, ∀ f ∈ e.files,
    f.1 ≠ "" ∧ f.1.data.all (fun c => c ≠ '/') = true

instance (walk : List WalkEntry) : Decidable (wfWalk walk) := by
  unfold wfWalk; infer_instance

/-- Walk of a one-directory model folder holding a weight file, a stale
archive, and an empty file, used to instantiate the packaging theorem. -/
def demoWalk : List WalkEntry :=
  [⟨"pharmalnet_model", [("model.pt", 5), ("old.zip", 3), ("empty.txt", 0)]⟩]

/-- Walk of an extracted archive whose second directory is the first one
holding both model files, used to instantiate the discovery theorem. -/
def demoWalk2 : List WalkEntry :=
  [⟨"top", [("readme.md", 3)]⟩,
   ⟨"top/model", [("model.pt", 5), ("config.pkl", 7)]⟩]

/-- Client-error (4xx-style) status range. -/
def clientErrorStatus (s : ℕ) : Prop := 400 ≤ s ∧ s < 500

/-- Training table presenting only two of the three requested columns. -/
def t6 : RawTable := ⟨["Smiles", "seq1"], [⟨.fin 1, .fin 2, .fin 100, []⟩]⟩

/-- Training table with all three columns whose single row is dropped by
the cleaning step (its label is negative). -/
def t7 : RawTable := ⟨["Smiles", "seq1", "Value"], [⟨.fin 1, .fin 2, .fin (-3), []⟩]⟩

/-- Batch table presenting neither of the two default column names. -/
def t9 : CsvTable := ⟨["compound"], [[.fin 1]]⟩

/-- Batch table with both default columns and one row, used to instantiate
the alignment theorem. -/
def t10 : CsvTable := ⟨["Smiles", "seq1"], [[.fin 1, .fin 2]]⟩

/-- An idealized float that is neither missing nor infinite is finite. -/
theorem FVal.isFinite_of_ok {x : FVal} (h : (!(x.isna || x.isInfinite)) = true) :
    x.isFinite = true := by
  cases x <;> simp_all [FVal.isna, FVal.isInfinite, FVal.isFinite]

/-- Membership in the cleaned dataset comes from a surviving raw row. -/
theorem mem_cleanDataset {lg : ℚ → ℚ} {rows : List RawRow} {r : CleanRow}
    (h : r ∈ cleanDataset lg rows) :
    (∃ raw ∈ filterPositive (dropnaSubset rows), addNormalized lg raw = r)
      ∧ rowOk r = true := by
  unfold cleanDataset at h
  rcases List.mem_filter.mp h with ⟨hmem, hok⟩
  rcases List.mem_map.mp hmem with ⟨raw, hraw, heq⟩
  exact ⟨⟨raw, hraw, heq⟩, hok⟩

/-- C1: every row of the cleaned dataset has a strictly positive (finite)
label and a finite normalized value equal to log10 of that label; and every
input row with a missing value in one of the three designated columns, a
label that does not compare strictly positive, or a non-finite
log-transform, is absent from the cleaned dataset. -/
theorem C1_clean_dataset_invariants (lg : ℚ → ℚ) (rows : List RawRow) :
    (∀ r ∈ cleanDataset lg rows,
        (∃ q : ℚ, r.value = FVal.fin q ∧ 0 < q)
          ∧ r.normalized = log10f lg r.value
          ∧ r.normalized.isFinite = true)
    ∧ (∀ raw ∈ rows,
        (raw.smiles.isna = true ∨ raw.protein.isna = true
            ∨ raw.value.isna = true ∨ raw.value.gtZero = false
            ∨ (log10f lg raw.value).isFinite = false)
          → addNormalized lg raw ∉ cleanDataset lg rows) := by
  constructor
  · intro r hr
    rcases mem_cleanDataset hr with ⟨⟨raw, hraw, heq⟩, hok⟩
    rcases List.mem_filter.mp hraw with ⟨_, hpos⟩
    have hval : r.value = raw.value := by rw [← heq]; rfl
    have hnorm : r.normalized = log10f lg r.value := by
      rw [← heq]; rfl
    have hcells := List.all_eq_true.mp hok
    have hvok := hcells r.value (by simp [CleanRow.cells])
    have hnok := hcells r.normalized (by simp [CleanRow.cells])
    refine ⟨?_, hnorm, FVal.isFinite_of_ok hnok⟩
    have hgt : r.value.gtZero = true := hval ▸ hpos
    cases hv : r.value with
    | fin q =>
      refine ⟨q, rfl, ?_⟩
      rw [hv] at hgt
      simpa [FVal.gtZero] using hgt
    | nan => rw [hv] at hgt; simp [FVal.gtZero] at hgt
    | neginf => rw [hv] at hgt; simp [FVal.gtZero] at hgt
    | inf => rw [hv] at hvok; simp [FVal.isna, FVal.isInfinite] at hvok
  · intro raw _ hbad hmem
    rcases mem_cleanDataset hmem with ⟨⟨raw2, hraw2, heq⟩, hok⟩
    have hs : raw2.smiles = raw.smiles := congrArg CleanRow.smiles heq
    have hp : raw2.protein = raw.protein := congrArg CleanRow.protein heq
    have hv : raw2.value = raw.value := congrArg CleanRow.value heq
    rcases List.mem_filter.mp hraw2 with ⟨hdrop, hpos⟩
    rcases List.mem_filter.mp hdrop with ⟨_, hna⟩
    rw [hs, hp, hv] at hna
    rw [hv] at hpos
    have hnfin : (log10f lg raw.value).isFinite = true := by
      have hcells := List.all_eq_true.mp hok
      have := hcells (addNormalized lg raw).normalized (by simp [CleanRow.cells])
      simpa [addNormalized] using FVal.isFinite_of_ok this
    rcases hbad with h | h | h | h | h
    · simp [h] at hna
    · simp [h] at hna
    · simp [h] at hna
    · rw [h] at hpos; exact Bool.false_ne_true hpos
    · rw [h] at hnfin; exact Bool.false_ne_true hnfin

/-- Witness for C1: a concrete one-row table whose row survives cleaning,
at which the invariant theorem yields the strictly positive finite label. -/
theorem C1_clean_dataset_invariants_witness :
    ∃ q : ℚ, (addNormalized id ⟨.fin 1, .fin 2, .fin 100, []⟩).value = FVal.fin q
      ∧ 0 < q :=
  ((C1_clean_dataset_invariants id [⟨.fin 1, .fin 2, .fin 100, []⟩]).1
    (addNormalized id ⟨.fin 1, .fin 2, .fin 100, []⟩) (by decide)).1

/-- C2: the transport-safe serializer maps NaN and both infinities (plain
or numpy-wrapped) to null, returns a plain finite number unchanged, and
falls back to the string form for a value whose classification raises,
instead of propagating the failure. -/
theorem C2_make_json_safe_transport :
    (make_json_safe (.float .nan) = .null
      ∧ make_json_safe (.float .inf) = .null
      ∧ make_json_safe (.float .neginf) = .null
      ∧ make_json_safe (.npNum .nan) = .null
      ∧ make_json_safe (.npNum .inf) = .null
      ∧ make_json_safe (.npNum .neginf) = .null)
    ∧ (∀ q : ℚ, make_json_safe (.float (.fin q)) = .unchanged (.float (.fin q)))
    ∧ (∀ s : String, make_json_safe (.raising s) = .strFallback s) :=
  ⟨⟨rfl, rfl, rfl, rfl, rfl, rfl⟩, fun _ => rfl, fun _ => rfl⟩

/-- C3: packaging a model directory puts every non-empty, non-archive file
into the archive at its base name, and the archive has no member named with
the archive extension, no zero-length member, and no member whose name is a
nested path (every member name is a nonempty single component). -/
theorem C3_flat_packaging (walk : List WalkEntry) (hwf : wfWalk walk) :
    (∀ e ∈ walk, ∀ f ∈ e.files,
        strEndsWith f.1 ".zip" = false → f.2 ≠ 0 → (f.1, f.2) ∈ zipMembers walk)
    ∧ (∀ m ∈ zipMembers walk,
        strEndsWith m.1 ".zip" = false ∧ m.2 ≠ 0
          ∧ m.1 ≠ "" ∧ m.1.data.all (fun c => c ≠ '/') = true) := by
  constructor
  · intro e he f hf hzip hsz
    unfold zipMembers
    rw [List.mem_flatten]
    refine ⟨(e.files.filter (fun f => !(strEndsWith f.1 ".zip" || f.2 == 0))).map
      (fun f => (f.1, f.2)), List.mem_map.mpr ⟨e, he, rfl⟩, ?_⟩
    refine List.mem_map.mpr ⟨f, List.mem_filter.mpr ⟨hf, ?_⟩, rfl⟩
    simp [hzip, hsz]
  · intro m hm
    unfold zipMembers at hm
    rw [List.mem_flatten] at hm
    rcases hm with ⟨lf, hlf, hmlf⟩
    rcases List.mem_map.mp hlf with ⟨e, he, rfl⟩
    rcases List.mem_map.mp hmlf with ⟨f, hf, rfl⟩
    rcases List.mem_filter.mp hf with ⟨hfe, hcond⟩
    rcases hwf e he f hfe with ⟨hne, hsl⟩
    simp only [Bool.not_eq_eq_eq_not, Bool.not_true, Bool.or_eq_false_iff,
      beq_eq_false_iff_ne] at hcond
    exact ⟨hcond.1, hcond.2, hne, hsl⟩

/-- Witness for C3: on the concrete walk the weight file lands in the
archive under its base name. -/
theorem C3_flat_packaging_witness : ("model.pt", 5) ∈ zipMembers demoWalk :=
  (C3_flat_packaging demoWalk (by decide)).1
    ⟨"pharmalnet_model", [("model.pt", 5), ("old.zip", 3), ("empty.txt", 0)]⟩
    (by decide) ("model.pt", 5) (by decide) (by decide) (by decide)

/-- C4: model-directory discovery returns the root of the first walk entry
holding both a ".pt" and a ".pkl" file, and fails exactly when no entry
does. -/
theorem C4_model_dir_discovery (walk : List WalkEntry) :
    (findModelDir walk = none ↔ ∀ e ∈ walk, hasModelFiles e = false)
    ∧ (∀ d : String, findModelDir walk = some d ↔
        ∃ pre e post, walk = pre ++ e :: post
          ∧ (∀ e2 ∈ pre, hasModelFiles e2 = false)
          ∧ hasModelFiles e = true ∧ e.root = d) := by
  induction walk with
  | nil =>
    constructor
    · simp [findModelDir]
    · intro d
      simp only [findModelDir, List.filter_nil, List.map_nil, List.head?_nil]
      constructor
      · intro h; cases h
      · rintro ⟨pre, e, post, habs, -⟩
        exact absurd habs (by simp)
  | cons a l ih =>
    by_cases ha : hasModelFiles a = true
    · constructor
      · constructor
        · intro h
          exact absurd h (by simp [findModelDir, List.filter_cons, ha])
        · intro h
          exact absurd ha (by simpa using h a (by simp))
      · intro d
        constructor
        · intro h
          have hd : a.root = d := by
            simpa [findModelDir, List.filter_cons, ha] using h
          exact ⟨[], a, l, by simp, by simp, ha, hd⟩
        · rintro ⟨pre, e, post, hdec, hpre, he, hd⟩
          cases pre with
          | nil =>
            have hae : a = e := by simpa using congrArg (fun x => x.head?) hdec
            have ha2 : hasModelFiles a = true := by rw [hae]; exact he
            have hd2 : a.root = d := by rw [hae]; exact hd
            simp [findModelDir, List.filter_cons, ha2, hd2]
          | cons p ps =>
            have hap : a = p := by simpa using congrArg (fun x => x.head?) hdec
            have : hasModelFiles p = false := hpre p (by simp)
            rw [← hap] at this
            rw [this] at ha
            cases ha
    · have hstep : findModelDir (a :: l) = findModelDir l := by
        simp [findModelDir, List.filter_cons, ha]
      constructor
      · rw [hstep]
        constructor
        · intro h e he
          rcases List.mem_cons.mp he with rfl | hel
          · simpa using ha
          · exact (ih.1.mp h) e hel
        · intro h
          exact ih.1.mpr (fun e he => h e (List.mem_cons_of_mem a he))
      · intro d
        rw [hstep, ih.2 d]
        constructor
        · rintro ⟨pre, e, post, rfl, hpre, he, hd⟩
          refine ⟨a :: pre, e, post, rfl, ?_, he, hd⟩
          intro e2 he2
          rcases List.mem_cons.mp he2 with rfl | h2
          · simpa using ha
          · exact hpre e2 h2
        · rintro ⟨pre, e, post, hdec, hpre, he, hd⟩
          cases pre with
          | nil =>
            have hae : a = e := by simpa using congrArg (fun x => x.head?) hdec
            rw [← hae] at he
            exact absurd he ha
          | cons p ps =>
            have hap : a = p := by simpa using congrArg (fun x => x.head?) hdec
            have htl : l = ps ++ e :: post := by
              simpa using congrArg List.tail hdec
            exact ⟨ps, e, post, htl, fun e2 h2 => hpre e2 (by simp [h2]), he, hd⟩

/-- Witness for C4: on the concrete walk, discovery selects the first (and
only) qualifying directory. -/
theorem C4_model_dir_discovery_witness : findModelDir demoWalk2 = some "top/model" :=
  ((C4_model_dir_discovery demoWalk2).2 "top/model").mpr
    ⟨[⟨"top", [("readme.md", 3)]⟩], ⟨"top/model", [("model.pt", 5), ("config.pkl", 7)]⟩,
      [], rfl, by decide, by decide, rfl⟩

/-- C5 (code evaluated at the failing input): for a single-record request
carrying no dataset file, whatever compound and sequence strings it holds
and whatever the scoring pipeline would do, the handler answers a
status-500 error: the dedented line `dti_api.py:203` reads the unbound name
`y_pred` outside the CSV branch, the `NameError` is caught by the blanket
handler at line 258, and the manual-input branch at lines 228-256 that
would return the single scalar prediction is unreachable. -/
theorem C5_single_mode_name_error
    (step : List String → List String → PredStepResult)
    (ovS ovP : Option String) (s p : String) :
    run_pharmalnet_prediction_body step none ovS ovP (some s) (some p)
      = .err 500 nameErrorMsg := rfl

/-- Counterexample to C6: on a concrete table lacking the label column the
endpoint answers with the generic failure message and status 500, which is
not a 4xx-style status. -/
theorem C6_counterexample :
    pharmalnet_train_api id t6 "Smiles" "seq1" "Value"
        = .response 500 (some trainFailMsg) none
      ∧ ¬ clientErrorStatus 500 :=
  ⟨by decide, by norm_num [clientErrorStatus]⟩

/-- C6 amended: a training request whose dataset lacks one of the three
requested columns is answered with the generic training-failed message,
status 500 (not 4xx: the column-check `ValueError` of
`dti_processor.py:37` is swallowed by the blanket handler at line 149,
whose sentinel the endpoint maps to a 500 at `dti_api.py:45-46`), and no
archive is produced. -/
theorem C6_missing_column_500 (lg : ℚ → ℚ) (t : RawTable)
    (sCol pCol vCol : String)
    (h : sCol ∉ t.cols ∨ pCol ∉ t.cols ∨ vCol ∉ t.cols) :
    pharmalnet_train_api lg t sCol pCol vCol
      = .response 500 (some trainFailMsg) none := by
  have hcols : ¬ (sCol ∈ t.cols ∧ pCol ∈ t.cols ∧ vCol ∈ t.cols) := by tauto
  simp [pharmalnet_train_api, protein_smiles_uploads_flow, hcols]

/-- Witness for the amended C6 at the concrete two-column table. -/
theorem C6_missing_column_500_witness :
    pharmalnet_train_api id t6 "Smiles" "seq1" "Value"
      = .response 500 (some trainFailMsg) none :=
  C6_missing_column_500 id t6 "Smiles" "seq1" "Value" (by decide)

/-- Counterexample to C7: on a concrete table where zero rows survive
cleaning, the cleaning step does not fail; control proceeds to the split
call with empty drug, target and label lists. -/
theorem C7_counterexample :
    cleanDataset id t7.rows = []
      ∧ protein_smiles_uploads_flow id t7 "Smiles" "seq1" "Value"
          = .reachesSplit [] [] [] :=
  ⟨by decide, by decide⟩

/-- C7 amended: when the three columns are present and zero rows survive
cleaning, `protein_smiles_uploads` raises no empty-dataset error and
proceeds to the split call with empty lists; any failure the downstream
library then raises is converted by the blanket handler at
`dti_processor.py:149` into the sentinel result. -/
theorem C7_empty_cleaning_proceeds (lg : ℚ → ℚ) (t : RawTable)
    (sCol pCol vCol : String)
    (hs : sCol ∈ t.cols) (hp : pCol ∈ t.cols) (hv : vCol ∈ t.cols)
    (hempty : cleanDataset lg t.rows = []) :
    protein_smiles_uploads_flow lg t sCol pCol vCol = .reachesSplit [] [] [] := by
  simp [protein_smiles_uploads_flow, hs, hp, hv, hempty]

/-- Witness for the amended C7 at the concrete all-dropped table. -/
theorem C7_empty_cleaning_proceeds_witness :
    protein_smiles_uploads_flow id t7 "Smiles" "seq1" "Value"
      = .reachesSplit [] [] [] :=
  C7_empty_cleaning_proceeds id t7 "Smiles" "seq1" "Value"
    (by decide) (by decide) (by decide) (by decide)

/-- Counterexample to C8: a non-empty (single-row) test partition on which
evaluation succeeds but returns NaN for both R2 and the correlation; only
the MSE is finite. -/
theorem C8_counterexample :
    evaluateMetrics [0] [1] = .ok (FVal.nan, FVal.fin 1, FVal.nan) := by
  have h1 : r2_score [0] [1] = .ok FVal.nan := by norm_num [r2_score]
  have h2 : mean_squared_error [0] [1] = .ok (FVal.fin 1) := by
    norm_num [mean_squared_error, qsum]
  have h3 : corrcoef01 [0] [1] = FVal.nan := by
    norm_num [corrcoef01, qmean, qsum]
  unfold evaluateMetrics
  rw [h1, h2, h3]
  rfl

/-- C8 amended: on an empty test partition the metric computation raises
the generic scikit-learn zero-samples error (there is no dedicated
empty-test-set error; the blanket handler turns it into the sentinel); on a
non-empty partition the computation succeeds with a finite MSE, but the
other metrics need not be finite: a single-sample partition yields NaN R2
and NaN correlation. -/
theorem C8_metrics_behavior (yt yp : List ℚ) :
    (yt = [] → evaluateMetrics yt yp = .error "Found array with 0 samples")
    ∧ (yt ≠ [] → ∃ r c q, evaluateMetrics yt yp = .ok (r, .fin q, c))
    ∧ (yt.length = 1 → ∃ q, evaluateMetrics yt yp = .ok (FVal.nan, .fin q, FVal.nan)) := by
  refine ⟨?_, ?_, ?_⟩
  · rintro rfl
    rfl
  · intro hne
    have hlen : ¬ yt.length = 0 := by simpa using hne
    have hr2 : ∃ r, r2_score yt yp = .ok r := by
      unfold r2_score
      rw [if_neg hlen]
      split
      · exact ⟨_, rfl⟩
      · split
        · exact ⟨_, rfl⟩
        · split
          · exact ⟨_, rfl⟩
          · exact ⟨_, rfl⟩
    rcases hr2 with ⟨r, hr⟩
    refine ⟨r, corrcoef01 yt yp,
      qsum ((yt.zip yp).map (fun z => (z.1 - z.2) ^ 2)) / yt.length, ?_⟩
    unfold evaluateMetrics
    rw [hr]
    unfold mean_squared_error
    rw [if_neg hlen]
    rfl
  · intro hlen1
    rcases List.length_eq_one.mp hlen1 with ⟨a, rfl⟩
    have hr2 : r2_score [a] yp = .ok FVal.nan := by norm_num [r2_score]
    have hcorr : corrcoef01 [a] yp = FVal.nan := by
      norm_num [corrcoef01, qmean, qsum]
    refine ⟨qsum (([a].zip yp).map (fun z => (z.1 - z.2) ^ 2)) / (([a] : List ℚ).length : ℚ), ?_⟩
    unfold evaluateMetrics
    rw [hr2, hcorr]
    unfold mean_squared_error
    rw [if_neg (by norm_num : ¬ ([a] : List ℚ).length = 0)]
    rfl

/-- Witness for the amended C8: the single-sample conclusion at the
concrete partition. -/
theorem C8_metrics_behavior_witness :
    ∃ q, evaluateMetrics [0] [1] = .ok (FVal.nan, .fin q, FVal.nan) :=
  (C8_metrics_behavior [0] [1]).2.2 (by decide)

/-- C9: a batch inference request whose table lacks the requested compound
or sequence column (defaulting to "Smiles" and "seq1") is answered with a
missing-column error of status 400, and the answer is the same whatever the
scoring pipeline would have computed (no scoring is attempted). -/
theorem C9_batch_missing_column
    (step step2 : List String → List String → PredStepResult)
    (df : CsvTable) (ovS ovP mS mP : Option String)
    (h : ¬ (ovS.getD "Smiles" ∈ df.cols ∧ ovP.getD "seq1" ∈ df.cols)) :
    run_pharmalnet_prediction_body step (some df) ovS ovP mS mP
        = .err 400 ("Missing required columns (" ++ ovS.getD "Smiles" ++ ", "
            ++ ovP.getD "seq1" ++ ")")
      ∧ run_pharmalnet_prediction_body step (some df) ovS ovP mS mP
          = run_pharmalnet_prediction_body step2 (some df) ovS ovP mS mP := by
  constructor <;> simp [run_pharmalnet_prediction_body, h]

/-- Witness for C9 at a concrete table lacking both default columns. -/
theorem C9_batch_missing_column_witness :
    run_pharmalnet_prediction_body (fun _ _ => .emptyProcessed) (some t9)
        none none none none
      = .err 400 "Missing required columns (Smiles, seq1)" :=
  (C9_batch_missing_column (fun _ _ => .emptyProcessed)
    (fun _ _ => .emptyProcessed) t9 none none none none (by decide)).1

/-- C10: in batch inference the two required columns are first converted to
strings (so NaN becomes the string "nan") and only then passed through
`dropna`, which therefore removes nothing: the extracted lists always have
exactly as many entries as the table has rows, the empty-input error branch
can only fire on a zero-row table, and on success the `Predicted` field has
one entry per prediction, in input order, with `total_records` equal to the
row count. -/
theorem C10_batch_alignment (df : CsvTable) :
    (∀ c : String, (df.colAsStrDropna c).length = df.rows.length)
    ∧ (∀ c : String, (df.colAsStrDropna c).isEmpty = true ↔ df.rows.length = 0)
    ∧ (∀ (step : List String → List String → PredStepResult)
        (ovS ovP mS mP : Option String) (y_pred : List FVal),
        df.rows ≠ []
        → (ovS.getD "Smiles" ∈ df.cols ∧ ovP.getD "seq1" ∈ df.cols)
        → step (df.colAsStrDropna (ovS.getD "Smiles"))
            (df.colAsStrDropna (ovP.getD "seq1")) = .ok y_pred
        → run_pharmalnet_prediction_body step (some df) ovS ovP mS mP
            = .okBatch ⟨df.rows.length, y_pred.map predCell⟩) := by
  have hlen : ∀ c : String, (df.colAsStrDropna c).length = df.rows.length := by
    intro c
    simp [CsvTable.colAsStrDropna, CsvTable.col, strIsna]
  refine ⟨hlen, ?_, ?_⟩
  · intro c
    rw [List.isEmpty_iff_length_eq_zero, hlen c]
  · intro step ovS ovP mS mP y_pred hrows hcols hstep
    have hsm : (df.colAsStrDropna (ovS.getD "Smiles")).isEmpty = false := by
      rw [Bool.eq_false_iff]
      intro habs
      have := (List.isEmpty_iff_length_eq_zero.mp habs)
      rw [hlen] at this
      exact hrows (List.length_eq_zero.mp this)
    have hpr : (df.colAsStrDropna (ovP.getD "seq1")).isEmpty = false := by
      rw [Bool.eq_false_iff]
      intro habs
      have := (List.isEmpty_iff_length_eq_zero.mp habs)
      rw [hlen] at this
      exact hrows (List.length_eq_zero.mp this)
    simp [run_pharmalnet_prediction_body, hcols, hsm, hpr, hstep]

/-- Witness for C10: one input row yields a success payload with
total_records 1 and a one-entry aligned Predicted column. -/
theorem C10_batch_alignment_witness :
    run_pharmalnet_prediction_body (fun _ _ => .ok [FVal.fin 3]) (some t10)
        none none none none
      = .okBatch ⟨1, [some 3]⟩ :=
  (C10_batch_alignment t10).2.2 (fun _ _ => .ok [FVal.fin 3])
    none none none none [FVal.fin 3] (by decide) (by decide) rfl

end Analogue
